import Mathlib

/-! # osm-history-renderer: importer core

A shallow embedding of `importer/entitytracker.hpp` (the three-slot
previous/current/next window) and `importer/geombuilder.hpp` (way geometry
construction at a timestamp), followed by theorems about them.

Conventions of the embedding

* `ObjectWrapper` stores a C++ reference (`const TObject&`).  A reference is
  modelled as an address `Ref TObject`; the objects themselves live in the
  driver's memory, a map `Memory TObject` from addresses to objects.
* A pointer slot (`ObjectWrapper<TObject> *`) is an `Option`: `none` is
  `nullptr`.
* `assert` is taken as active (no `NDEBUG`), as the doc comment of `feed`
  describes it: a failed assertion ends the call with `assertionFailed`
  and leaves the state as it was when the assertion ran.
* Dereferencing a null slot is undefined behaviour; functions that may do so
  return `Option`, with `none` for the undefined case.
-/

namespace Importer

/-! ## entitytracker.hpp -/

/-- Identifier type of OSM objects (`osmium::object_id_type`, a signed 64 bit
integer; only equality is used). -/
abbrev ObjectId := Int

/-- What the tracker needs of its template parameter `TObject`: the member
function `id()`. -/
class HasId (TObject : Type) where
  id : TObject → ObjectId

/-- A C++ reference to a `TObject` owned by the caller: its address. -/
structure Ref (TObject : Type) where
  addr : Nat
deriving DecidableEq, Repr

/-- The caller's memory: the object found at each address. -/
abbrev Memory (TObject : Type) := Ref TObject → TObject

/-- Embedding of `ObjectWrapper<TObject>`: the single member
`const TObject& object`. -/
structure ObjectWrapper (TObject : Type) where
  object : Ref TObject
deriving DecidableEq, Repr

/-- Embedding of `ObjectWrapper::obj()`: returns the reference it wraps. -/
def ObjectWrapper.obj {TObject : Type} (w : ObjectWrapper TObject) : Ref TObject :=
  w.object

/-- Embedding of the data members of `EntityTracker<TObject>`. -/
structure EntityTracker (TObject : Type) where
  m_prev : Option (ObjectWrapper TObject)
  m_cur : Option (ObjectWrapper TObject)
  m_next : Option (ObjectWrapper TObject)
deriving DecidableEq, Repr

/-- How a call on the tracker can end abnormally. -/
inductive TrackerError where
  | assertionFailed
deriving DecidableEq, Repr

namespace EntityTracker

variable {TObject : Type}

/-- Embedding of the constructor `EntityTracker()`: all three pointers null. -/
def new : EntityTracker TObject :=
  { m_prev := none, m_cur := none, m_next := none }

/-- Embedding of `prev()`: `m_prev->obj()`, read through the memory. -/
def prev (mem : Memory TObject) (tr : EntityTracker TObject) : Option TObject :=
  tr.m_prev.map (fun w => mem w.obj)

/-- Embedding of `cur()`: `m_cur->obj()`, read through the memory. -/
def cur (mem : Memory TObject) (tr : EntityTracker TObject) : Option TObject :=
  tr.m_cur.map (fun w => mem w.obj)

/-- Embedding of `next()`: `m_next->obj()`, read through the memory. -/
def next (mem : Memory TObject) (tr : EntityTracker TObject) : Option TObject :=
  tr.m_next.map (fun w => mem w.obj)

/-- Embedding of `has_prev()`: `m_prev != nullptr`. -/
def has_prev (tr : EntityTracker TObject) : Bool :=
  tr.m_prev.isSome

/-- Embedding of `has_cur()`: `m_cur != nullptr`. -/
def has_cur (tr : EntityTracker TObject) : Bool :=
  tr.m_cur.isSome

/-- Embedding of `has_next()`: `m_next != nullptr`. -/
def has_next (tr : EntityTracker TObject) : Bool :=
  tr.m_next.isSome

/-- Embedding of `prev_is_same_entity()`:
`has_cur() && has_prev() && (cur().id() == prev().id())`, with the
short-circuit evaluation of `&&` written out.  The result is `none` when the
evaluation dereferences a null slot. -/
def prev_is_same_entity [HasId TObject] (mem : Memory TObject)
    (tr : EntityTracker TObject) : Option Bool :=
  if tr.has_cur then
    if tr.has_prev then
      match tr.cur mem, tr.prev mem with
      | some c, some p => some (HasId.id c == HasId.id p)
      | _, _ => none
    else some false
  else some false

/-- Embedding of `next_is_same_entity()`:
`has_cur() && has_next() && (cur().id() == next().id())`, with the
short-circuit evaluation of `&&` written out.  The result is `none` when the
evaluation dereferences a null slot. -/
def next_is_same_entity [HasId TObject] (mem : Memory TObject)
    (tr : EntityTracker TObject) : Option Bool :=
  if tr.has_cur then
    if tr.has_next then
      match tr.cur mem, tr.next mem with
      | some c, some n => some (HasId.id c == HasId.id n)
      | _, _ => none
    else some false
  else some false

/-- Embedding of `feed(obj)`: `assert(!m_next)`, then
`m_next = new ObjectWrapper<TObject>(obj)`.  The first component tells how
the call ended, the second is the tracker state at that point. -/
def feed (tr : EntityTracker TObject) (obj : Ref TObject) :
    Except TrackerError Unit × EntityTracker TObject :=
  if tr.m_next.isSome then
    (Except.error TrackerError.assertionFailed, tr)
  else
    (Except.ok (), { tr with m_next := some { object := obj } })

/-- Embedding of `swap()`, statement by statement: `m_prev` becomes a new
wrapper around `m_cur->obj()` (or null), `m_cur` a new wrapper around
`m_next->obj()` (or null), `m_next` null. -/
def swap (tr : EntityTracker TObject) : EntityTracker TObject :=
  let tr1 : EntityTracker TObject :=
    match tr.m_cur with
    | some c => { tr with m_prev := some { object := c.obj } }
    | none => { tr with m_prev := none }
  let tr2 : EntityTracker TObject :=
    match tr1.m_next with
    | some n => { tr1 with m_cur := some { object := n.obj } }
    | none => { tr1 with m_cur := none }
  { tr2 with m_next := none }

end EntityTracker

/-- One call of the driver on a tracker. -/
inductive Call (TObject : Type) where
  | feed (obj : Ref TObject)
  | swap
deriving DecidableEq, Repr

/-- Runs a sequence of driver calls in order.  A failed assertion aborts the
program: the run ends with the error and no later call is made. -/
def runCalls {TObject : Type} :
    EntityTracker TObject → List (Call TObject) → Except TrackerError (EntityTracker TObject)
  | tr, [] => Except.ok tr
  | tr, Call.feed obj :: rest =>
    match tr.feed obj with
    | (Except.ok _, tr1) => runCalls tr1 rest
    | (Except.error e, _) => Except.error e
  | tr, Call.swap :: rest => runCalls tr.swap rest

/-- The driver protocol of the importer for entities at `objs`, in stream
order: `feed(x); swap()` for each. -/
def feedSwapAll {TObject : Type} (objs : List (Ref TObject)) : List (Call TObject) :=
  objs.flatMap (fun x => [Call.feed x, Call.swap])

/-- The precondition of `feed` along a sequence of calls started in state
`tr`: no `feed` is issued while a next is staged. -/
def feedsOnlyWhenNoNext {TObject : Type} :
    EntityTracker TObject → List (Call TObject) → Bool
  | _, [] => true
  | tr, Call.feed obj :: rest => !tr.has_next && feedsOnlyWhenNoNext (tr.feed obj).2 rest
  | tr, Call.swap :: rest => feedsOnlyWhenNoNext tr.swap rest

/-- A minimal OSM object for concrete runs: identity and version. -/
structure SampleObject where
  id : ObjectId
  version : Nat
deriving DecidableEq, Repr

instance : HasId SampleObject where
  id := SampleObject.id

/-- A sample memory: address 0 holds entity 7 version 1 (A), address 1 holds
entity 7 version 2 (A2), every other address entity 9 version 1 (B). -/
def sampleMemory : Memory SampleObject := fun r =>
  match r.addr with
  | 0 => { id := 7, version := 1 }
  | 1 => { id := 7, version := 2 }
  | _ => { id := 9, version := 1 }

/-! ## geombuilder.hpp

Collaborators that are not part of the two files are parameters of the
embedding: the node store (`Nodestore::lookup`), the projection
(`Project::toMercator`) and the GEOS geometry factory.  Coordinates are
C++ `double`s; the embedding is generic in the scalar type `F` and uses only
its comparison `==`, of which no law is assumed.
-/

/-- Timestamps (`time_t`). -/
abbrev Time := Int

/-- What `forWay` reads of an `osmium::NodeRef`: `ref()`, the node id. -/
structure NodeRef where
  ref : ObjectId
deriving DecidableEq, Repr

/-- What `forWay` reads of `Nodestore::Nodeinfo`: `lon` and `lat`. -/
structure Nodeinfo (F : Type) where
  lon : F
  lat : F
deriving DecidableEq, Repr

/-- The node store as `forWay` uses it: `lookup(id, t, found)` returns the
node info and sets the out-parameter `found`. -/
structure Nodestore (F : Type) where
  lookup : ObjectId → Time → Nodeinfo F × Bool

/-- The database adapter: stored by the builder, not used by `forWay`. -/
structure DbAdapter where
deriving DecidableEq, Repr

/-- The projection as `forWay` uses it: `Project::toMercator(&lon, &lat)`
returns whether it succeeded, and the two values as it leaves them. -/
structure Project (F : Type) where
  toMercator : F → F → Bool × F × F

/-- Embedding of `geos::geom::Coordinate`: `x`, `y` and `z`; `z = none`
stands for `DoubleNotANumber`. -/
structure Coordinate (F : Type) where
  x : F
  y : F
  z : Option F
deriving DecidableEq, Repr

/-- The comparison `operator==` of `geos::geom::Coordinate`: equality of the
`x` and of the `y` ordinates (`equals2D`); `z` is not compared. -/
def Coordinate.equals2D {F : Type} [BEq F] (a b : Coordinate F) : Bool :=
  a.x == b.x && a.y == b.y

/-- A request to the GEOS factory, as `forWay` composes it: either
`createPolygon(createLinearRing(create(c)), NULL)`, a polygon with shell `c`
and no holes, or `createLineString(create(c))`. -/
inductive EngineRequest (F : Type) where
  | polygon (shell : List (Coordinate F))
  | lineString (path : List (Coordinate F))
deriving DecidableEq, Repr

/-- Whether the request is for a polygon. -/
def EngineRequest.isPolygon {F : Type} : EngineRequest F → Bool
  | EngineRequest.polygon _ => true
  | EngineRequest.lineString _ => false

/-- Whether the request is for a line string. -/
def EngineRequest.isLineString {F : Type} : EngineRequest F → Bool
  | EngineRequest.polygon _ => false
  | EngineRequest.lineString _ => true

/-- The coordinate sequence handed over with the request. -/
def EngineRequest.coords {F : Type} : EngineRequest F → List (Coordinate F)
  | EngineRequest.polygon shell => shell
  | EngineRequest.lineString path => path

/-- The exception of GEOS (`geos::util::GEOSException`): its message. -/
structure GEOSException where
  what : String
deriving DecidableEq, Repr

/-- What `forWay` uses of a `geos::geom::Geometry`: the SRID attribute;
`shape` is everything else the factory put into it. -/
structure Geometry (G : Type) where
  shape : G
  srid : Int
deriving DecidableEq, Repr

/-- Embedding of `Geometry::setSRID`. -/
def Geometry.setSRID {G : Type} (g : Geometry G) (srid : Int) : Geometry G :=
  { g with srid := srid }

/-- The GEOS factory as `forWay` uses it: a request either throws a
`GEOSException` or returns a geometry pointer (`none` is `NULL`). -/
structure GeometryFactory (F G : Type) where
  create : EngineRequest F → Except GEOSException (Option (Geometry G))

/-- A line written to `std::cerr`. -/
inductive LogLine (F : Type) where
  | nodeAt (id : ObjectId) (t : Time) (lon lat : F)
  | foundOnly (size : Nat)
  | errorCreating (what : String)
deriving DecidableEq, Repr

/-- Everything observable of one call of `forWay`: the lines written to
`std::cerr`, the requests made to the GEOS factory in order, and the returned
pointer (`none` is `NULL`). -/
structure ForWayRun (F G : Type) where
  cerr : List (LogLine F)
  requests : List (EngineRequest F)
  result : Option (Geometry G)

/-- Embedding of the data members of `GeomBuilder`. -/
structure GeomBuilder (F : Type) where
  m_nodestore : Nodestore F
  m_adapter : DbAdapter
  m_isupdate : Bool
  m_keepLatLng : Bool
  m_debug : Bool
  m_showerrors : Bool

namespace GeomBuilder

variable {F G : Type}

/-- Embedding of the protected constructor
`GeomBuilder(nodestore, adapter, isUpdate)`.  Its initialiser list sets
`m_nodestore`, `m_adapter`, `m_isupdate`, `m_debug(false)` and
`m_showerrors(false)`; `m_keepLatLng` is not initialised, its value is
whatever the parameter `indeterminate` says. -/
def construct (nodestore : Nodestore F) (adapter : DbAdapter) (isUpdate : Bool)
    (indeterminate : Bool) : GeomBuilder F :=
  { m_nodestore := nodestore, m_adapter := adapter, m_isupdate := isUpdate,
    m_keepLatLng := indeterminate, m_debug := false, m_showerrors := false }

/-- Embedding of `isKeepingLatLng()`. -/
def isKeepingLatLng (b : GeomBuilder F) : Bool :=
  b.m_keepLatLng

/-- Embedding of `keepLatLng(shouldKeepLatLng)`. -/
def keepLatLng (b : GeomBuilder F) (shouldKeepLatLng : Bool) : GeomBuilder F :=
  { b with m_keepLatLng := shouldKeepLatLng }

/-- Embedding of `isPrintingDebugMessages()`. -/
def isPrintingDebugMessages (b : GeomBuilder F) : Bool :=
  b.m_debug

/-- Embedding of `printDebugMessages(shouldPrintDebugMessages)`. -/
def printDebugMessages (b : GeomBuilder F) (shouldPrintDebugMessages : Bool) :
    GeomBuilder F :=
  { b with m_debug := shouldPrintDebugMessages }

/-- Embedding of the body of the loop `for (const auto& node_ref : nodes)` of
`forWay`, on the pair of the lines written so far and the vector `c`. -/
def forWayNode (b : GeomBuilder F) (proj : Project F) (t : Time)
    (st : List (LogLine F) × List (Coordinate F)) (node_ref : NodeRef) :
    List (LogLine F) × List (Coordinate F) :=
  let id := node_ref.ref
  let looked := b.m_nodestore.lookup id t
  let info := looked.1
  let found := looked.2
  if !found then st
  else
    let lon := info.lon
    let lat := info.lat
    let cerr := if b.m_debug then st.1 ++ [LogLine.nodeAt id t lon lat] else st.1
    if !b.m_keepLatLng then
      let projected := proj.toMercator lon lat
      if !projected.1 then (cerr, st.2)
      else (cerr, st.2 ++ [{ x := projected.2.1, y := projected.2.2, z := none }])
    else (cerr, st.2 ++ [{ x := lon, y := lat, z := none }])

/-- Embedding of `c->front() == c->back()`; both are undefined on an empty
vector, which `forWay` excludes before it compares. -/
def frontEqualsBack [BEq F] (c : List (Coordinate F)) : Bool :=
  match c.head?, c.getLast? with
  | some front, some back => front.equals2D back
  | _, _ => false

/-- Embedding of `forWay(nodes, t, looksLikePolygon)`. -/
def forWay [BEq F] (b : GeomBuilder F) (proj : Project F) (factory : GeometryFactory F G)
    (nodes : List NodeRef) (t : Time) (looksLikePolygon : Bool) : ForWayRun F G :=
  let st := nodes.foldl (forWayNode b proj t) ([], [])
  let c := st.2
  if c.length < 2 then
    { cerr := if b.m_showerrors then st.1 ++ [LogLine.foundOnly c.length] else st.1,
      requests := [],
      result := none }
  else
    let request :=
      if looksLikePolygon && frontEqualsBack c && decide (c.length ≥ 4) then
        EngineRequest.polygon c
      else
        EngineRequest.lineString c
    match factory.create request with
    | Except.error e =>
      { cerr := if b.m_showerrors then st.1 ++ [LogLine.errorCreating e.what] else st.1,
        requests := [request],
        result := none }
    | Except.ok geom =>
      { cerr := st.1,
        requests := [request],
        result := geom.map (fun g => g.setSRID 900913) }

end GeomBuilder

/-- Embedding of the constructor of `ImportGeomBuilder`:
`GeomBuilder(nodestore, adapter, false)`. -/
def ImportGeomBuilder {F : Type} (nodestore : Nodestore F) (adapter : DbAdapter)
    (indeterminate : Bool) : GeomBuilder F :=
  GeomBuilder.construct nodestore adapter false indeterminate

/-- Embedding of the constructor of `UpdateGeomBuilder`:
`GeomBuilder(nodestore, adapter, true)`. -/
def UpdateGeomBuilder {F : Type} (nodestore : Nodestore F) (adapter : DbAdapter)
    (indeterminate : Bool) : GeomBuilder F :=
  GeomBuilder.construct nodestore adapter true indeterminate

/-- The usable coordinate of one node reference, in the words of the
specification: the reference must resolve at the timestamp and, unless
geographic coordinates are kept, also project successfully. -/
def usableCoordinate {F : Type} (b : GeomBuilder F) (proj : Project F) (t : Time)
    (node_ref : NodeRef) : Option (Coordinate F) :=
  let looked := b.m_nodestore.lookup node_ref.ref t
  if looked.2 then
    if b.m_keepLatLng then
      some { x := looked.1.lon, y := looked.1.lat, z := none }
    else
      let projected := proj.toMercator looked.1.lon looked.1.lat
      if projected.1 then some { x := projected.2.1, y := projected.2.2, z := none }
      else none
  else none

/-- The usable coordinates of a way, in the words of the specification: one
per node reference that has a usable coordinate, in node-reference order. -/
def usableCoordinates {F : Type} (b : GeomBuilder F) (proj : Project F) (t : Time)
    (nodes : List NodeRef) : List (Coordinate F) :=
  nodes.filterMap (usableCoordinate b proj t)

/-- A sample node store over integer coordinates: node 1 at (0,0), node 2 at
(1,0), node 3 at (1,1), node 4 at (0,90); no other node is found. -/
def sampleStore : Nodestore Int where
  lookup := fun id _ =>
    if id = 1 then ({ lon := 0, lat := 0 }, true)
    else if id = 2 then ({ lon := 1, lat := 0 }, true)
    else if id = 3 then ({ lon := 1, lat := 1 }, true)
    else if id = 4 then ({ lon := 0, lat := 90 }, true)
    else ({ lon := 0, lat := 0 }, false)

/-- A sample projection over integer coordinates: fails for latitudes beyond
85 degrees, scales both values by 100 otherwise. -/
def sampleProject : Project Int where
  toMercator := fun lon lat =>
    if lat < -85 ∨ 85 < lat then (false, lon, lat) else (true, lon * 100, lat * 100)

/-- A sample factory that accepts every request and returns a geometry whose
shape is the request itself, with the SRID the factory was built with. -/
def sampleFactory : GeometryFactory Int (EngineRequest Int) where
  create := fun request => Except.ok (some { shape := request, srid := -1 })

/-- A sample builder on the sample store that keeps geographic coordinates. -/
def sampleBuilder : GeomBuilder Int :=
  (ImportGeomBuilder sampleStore {} false).keepLatLng true

/-- The coordinates the node store returns for a way at a timestamp, in the
words of the specification: the node info of each node reference that
resolves, in node-reference order. -/
def resolvedCoordinates {F : Type} (store : Nodestore F) (t : Time) (nodes : List NodeRef) :
    List (Nodeinfo F) :=
  nodes.filterMap (fun r => if (store.lookup r.ref t).2 then some (store.lookup r.ref t).1 else none)

/-- Whether a node reference resolves at the timestamp. -/
def resolves {F : Type} (store : Nodestore F) (t : Time) (r : NodeRef) : Bool :=
  (store.lookup r.ref t).2

/-- Whether the projection of the coordinate the store returns for a node
reference succeeds. -/
def projects {F : Type} (store : Nodestore F) (proj : Project F) (t : Time) (r : NodeRef) : Bool :=
  (proj.toMercator (store.lookup r.ref t).1.lon (store.lookup r.ref t).1.lat).1

/-- The projection's image of the coordinate the store returns for a node
reference. -/
def projectedCoordinate {F : Type} (store : Nodestore F) (proj : Project F) (t : Time)
    (r : NodeRef) : Coordinate F :=
  { x := (proj.toMercator (store.lookup r.ref t).1.lon (store.lookup r.ref t).1.lat).2.1,
    y := (proj.toMercator (store.lookup r.ref t).1.lon (store.lookup r.ref t).1.lat).2.2,
    z := none }

/-- A sample projection that fails on every coordinate. -/
def failingProject : Project Int where
  toMercator := fun lon lat => (false, lon, lat)

/-- A sample factory that rejects every request with a `GEOSException`. -/
def rejectingFactory : GeometryFactory Int (EngineRequest Int) where
  create := fun _ => Except.error { what := "IllegalArgumentException" }

/-- A sample node store in which two nodes share a coordinate: node 1 and
node 5 at (0,0), node 2 at (1,0), node 3 at (1,1); no other node is found. -/
def twinStore : Nodestore Int where
  lookup := fun id _ =>
    if id = 1 then ({ lon := 0, lat := 0 }, true)
    else if id = 2 then ({ lon := 1, lat := 0 }, true)
    else if id = 3 then ({ lon := 1, lat := 1 }, true)
    else if id = 5 then ({ lon := 0, lat := 0 }, true)
    else ({ lon := 0, lat := 0 }, false)

/-- The caller's memory after the object at address `r` has been overwritten
with `v`. -/
def writeMemory {TObject : Type} (mem : Memory TObject) (r : Ref TObject) (v : TObject) :
    Memory TObject :=
  fun q => if q.addr = r.addr then v else mem q

/-! ## Theorems: entity tracker -/

/-- C1: for every tracker state, `swap()` yields exactly the state whose
previous is the old current, whose current is the old next and whose next is
absent; the old previous is discarded.  Stated on the slots and on what the
accessors return. -/
theorem swap_shifts_window {TObject : Type} (mem : Memory TObject)
    (tr : EntityTracker TObject) :
    tr.swap = { m_prev := tr.m_cur, m_cur := tr.m_next, m_next := none } ∧
    tr.swap.prev mem = tr.cur mem ∧
    tr.swap.cur mem = tr.next mem ∧
    tr.swap.next mem = none ∧
    tr.swap.has_next = false := by
  obtain ⟨p, c, n⟩ := tr
  cases c <;> cases n <;>
    simp [EntityTracker.swap, EntityTracker.prev, EntityTracker.cur, EntityTracker.next,
      EntityTracker.has_next, ObjectWrapper.obj]

/-- C2: in every tracker state with no staged next, `feed(e)` succeeds and
leaves a state whose next is `e` and whose previous and current slots are
unchanged. -/
theorem feed_stages_next {TObject : Type} (mem : Memory TObject)
    (tr : EntityTracker TObject) (e : Ref TObject) (h : tr.has_next = false) :
    tr.feed e =
      (Except.ok (), { m_prev := tr.m_prev, m_cur := tr.m_cur, m_next := some { object := e } }) ∧
    (tr.feed e).2.next mem = some (mem e) ∧
    (tr.feed e).2.prev mem = tr.prev mem ∧
    (tr.feed e).2.cur mem = tr.cur mem := by
  obtain ⟨p, c, n⟩ := tr
  cases n with
  | some w => simp [EntityTracker.has_next] at h
  | none =>
    simp [EntityTracker.feed, EntityTracker.prev, EntityTracker.cur, EntityTracker.next,
      ObjectWrapper.obj]

/-- Witness of C2: feeding the object at address 1 to the tracker that holds
the object at address 0 as current. -/
theorem feed_stages_next_witness :
    ({ m_prev := none, m_cur := some { object := { addr := 0 } }, m_next := none } :
        EntityTracker SampleObject).has_next = false ∧
    (({ m_prev := none, m_cur := some { object := { addr := 0 } }, m_next := none } :
        EntityTracker SampleObject).feed { addr := 1 }).2.next sampleMemory =
      some { id := 7, version := 2 } :=
  ⟨by decide,
    (feed_stages_next sampleMemory
      { m_prev := none, m_cur := some { object := { addr := 0 } }, m_next := none }
      { addr := 1 } (by decide)).2.1⟩

/-- C3: in every tracker state in which a next is staged, `feed(e)` fails
with the assertion failure, the same for every such state and entity, and the
state at the failure is the state before the call: previous and current (and
next) are not modified. -/
theorem feed_twice_fails {TObject : Type} (mem : Memory TObject)
    (tr : EntityTracker TObject) (e : Ref TObject) (h : tr.has_next = true) :
    (tr.feed e).1 = Except.error TrackerError.assertionFailed ∧
    (tr.feed e).2.m_prev = tr.m_prev ∧
    (tr.feed e).2.m_cur = tr.m_cur ∧
    (tr.feed e).2.prev mem = tr.prev mem ∧
    (tr.feed e).2.cur mem = tr.cur mem ∧
    (tr.feed e).2 = tr := by
  have hn : tr.m_next.isSome = true := h
  simp [EntityTracker.feed, hn]

/-- Witness of C3: a second `feed` right after a first one on a new tracker. -/
theorem feed_twice_fails_witness :
    ((EntityTracker.new : EntityTracker SampleObject).feed { addr := 0 }).2.has_next = true ∧
    (((EntityTracker.new : EntityTracker SampleObject).feed { addr := 0 }).2.feed
        { addr := 1 }).1 = Except.error TrackerError.assertionFailed :=
  ⟨by decide,
    (feed_twice_fails sampleMemory
      ((EntityTracker.new : EntityTracker SampleObject).feed { addr := 0 }).2
      { addr := 1 } (by decide)).1⟩

/-- Running a concatenation: run the first part, then the second from the
state reached. -/
theorem runCalls_append {TObject : Type} (a b : List (Call TObject)) :
    ∀ tr : EntityTracker TObject,
      runCalls tr (a ++ b) = (runCalls tr a).bind (fun s => runCalls s b) := by
  induction a with
  | nil => intro tr; rfl
  | cons call rest ih =>
    intro tr
    cases call with
    | swap => simpa [runCalls] using ih tr.swap
    | feed obj =>
      simp only [List.cons_append, runCalls]
      rcases hf : tr.feed obj with ⟨r, tr1⟩
      cases r with
      | ok u => simpa using ih tr1
      | error e => rfl

/-- A sequence that respects the precondition of `feed` runs to its end. -/
theorem runCalls_ok_of_feedsOnlyWhenNoNext {TObject : Type} (calls : List (Call TObject)) :
    ∀ tr : EntityTracker TObject, feedsOnlyWhenNoNext tr calls = true →
      ∃ final, runCalls tr calls = Except.ok final := by
  induction calls with
  | nil => intro tr _; exact ⟨tr, rfl⟩
  | cons call rest ih =>
    intro tr h
    cases call with
    | swap => exact ih tr.swap (by simpa [feedsOnlyWhenNoNext] using h)
    | feed obj =>
      simp only [feedsOnlyWhenNoNext, Bool.and_eq_true, Bool.not_eq_true'] at h
      obtain ⟨final, hfinal⟩ := ih (tr.feed obj).2 h.2
      refine ⟨final, ?_⟩
      have hn : tr.m_next.isSome = false := h.1
      simp only [runCalls]
      simp only [EntityTracker.feed, hn] at hfinal ⊢
      simpa using hfinal

/-- A prefix of a sequence that respects the precondition respects it. -/
theorem feedsOnlyWhenNoNext_of_append {TObject : Type} (a b : List (Call TObject)) :
    ∀ tr : EntityTracker TObject, feedsOnlyWhenNoNext tr (a ++ b) = true →
      feedsOnlyWhenNoNext tr a = true := by
  induction a with
  | nil => intro tr _; rfl
  | cons call rest ih =>
    intro tr h
    cases call with
    | swap => exact ih tr.swap (by simpa [feedsOnlyWhenNoNext] using h)
    | feed obj =>
      simp only [List.cons_append, feedsOnlyWhenNoNext, Bool.and_eq_true] at h ⊢
      exact ⟨h.1, ih _ h.2⟩

/-- C4: for every sequence of `feed`/`swap` calls applied to a new tracker in
which no `feed` is issued while a next is staged, the run reaches the state
right after each of its `swap()` calls, and `has_next()` is false there. -/
theorem has_next_false_after_every_swap {TObject : Type}
    (calls before after : List (Call TObject))
    (hsplit : calls = before ++ Call.swap :: after)
    (hpre : feedsOnlyWhenNoNext (EntityTracker.new : EntityTracker TObject) calls = true) :
    ∃ tr, runCalls (EntityTracker.new : EntityTracker TObject) (before ++ [Call.swap]) =
        Except.ok tr ∧ tr.has_next = false := by
  subst hsplit
  have hb : feedsOnlyWhenNoNext (EntityTracker.new : EntityTracker TObject) before = true :=
    feedsOnlyWhenNoNext_of_append before _ _ hpre
  obtain ⟨s, hs⟩ := runCalls_ok_of_feedsOnlyWhenNoNext before _ hb
  refine ⟨s.swap, ?_, ?_⟩
  · rw [runCalls_append, hs]; rfl
  · simp [EntityTracker.swap, EntityTracker.has_next]

/-- Witness of C4: `feed, swap, swap, feed, swap, feed`, at its third `swap`. -/
theorem has_next_false_after_every_swap_witness :
    feedsOnlyWhenNoNext (EntityTracker.new : EntityTracker SampleObject)
      [Call.feed { addr := 0 }, Call.swap, Call.swap, Call.feed { addr := 1 }, Call.swap,
        Call.feed { addr := 2 }] = true ∧
    ∃ tr, runCalls (EntityTracker.new : EntityTracker SampleObject)
        ([Call.feed { addr := 0 }, Call.swap, Call.swap, Call.feed { addr := 1 }] ++
          [Call.swap]) = Except.ok tr ∧ tr.has_next = false :=
  ⟨by decide,
    has_next_false_after_every_swap
      [Call.feed { addr := 0 }, Call.swap, Call.swap, Call.feed { addr := 1 }, Call.swap,
        Call.feed { addr := 2 }]
      [Call.feed { addr := 0 }, Call.swap, Call.swap, Call.feed { addr := 1 }]
      [Call.feed { addr := 2 }] rfl (by decide)⟩

/-- The driver protocol for a stream that starts with `a`. -/
theorem feedSwapAll_cons {TObject : Type} (a : Ref TObject) (rest : List (Ref TObject)) :
    feedSwapAll (a :: rest) = Call.feed a :: Call.swap :: feedSwapAll rest := by
  simp [feedSwapAll]

/-- The state after `feed(x); swap()` for each `x` of `pre ++ [x]`, started
in a state without a staged next: current wraps `x`, previous wraps the last
of `pre`, or is the old current when `pre` is empty. -/
theorem runCalls_feedSwapAll {TObject : Type} (x : Ref TObject) (pre : List (Ref TObject)) :
    ∀ tr : EntityTracker TObject, tr.m_next = none →
      runCalls tr (feedSwapAll (pre ++ [x])) =
        Except.ok
          { m_prev := (match pre.getLast? with
              | some y => some { object := y }
              | none => tr.m_cur),
            m_cur := some { object := x },
            m_next := none } := by
  induction pre with
  | nil =>
    intro tr h
    obtain ⟨p, c, n⟩ := tr
    simp only at h
    subst h
    cases c <;>
      simp [feedSwapAll, runCalls, EntityTracker.feed, EntityTracker.swap, ObjectWrapper.obj]
  | cons a rest ih =>
    intro tr h
    obtain ⟨p, c, n⟩ := tr
    simp only at h
    subst h
    have hstep : runCalls ({ m_prev := p, m_cur := c, m_next := none } : EntityTracker TObject)
        (feedSwapAll (a :: rest ++ [x])) =
        runCalls ({ m_prev := c, m_cur := some { object := a }, m_next := none } :
          EntityTracker TObject) (feedSwapAll (rest ++ [x])) := by
      rw [List.cons_append, feedSwapAll_cons]
      cases c <;>
        simp [runCalls, EntityTracker.feed, EntityTracker.swap, ObjectWrapper.obj]
    rw [hstep, ih _ rfl]
    cases hl : rest.getLast? with
    | none =>
      have : rest = [] := List.getLast?_eq_none_iff.mp hl
      subst this
      simp
    | some y =>
      have : (a :: rest).getLast? = some y := by
        cases rest with
        | nil => simp at hl
        | cons b r => simpa [List.getLast?_cons_cons] using hl
      simp [this]

/-- C5: for every non-empty sequence of entities `pre ++ [x]` (so `x` is
`xn` and the last of `pre`, when there is one, is `x(n-1)`), `feed(xi); swap()`
for each in order from a new tracker ends in a state where current is `xn`,
previous is `x(n-1)` when `n ≥ 2` and absent when `n = 1`, next is absent, and
`prev_is_same_entity()` is defined and true iff `n ≥ 2` and `xn`, `x(n-1)`
have the same identity. -/
theorem feed_swap_sequence {TObject : Type} [HasId TObject] (mem : Memory TObject)
    (pre : List (Ref TObject)) (x : Ref TObject) :
    ∃ tr, runCalls (EntityTracker.new : EntityTracker TObject) (feedSwapAll (pre ++ [x])) =
        Except.ok tr ∧
      tr.cur mem = some (mem x) ∧
      tr.prev mem = pre.getLast?.map mem ∧
      (pre = [] → tr.has_prev = false) ∧
      tr.next mem = none ∧ tr.has_next = false ∧
      (∃ same, tr.prev_is_same_entity mem = some same ∧
        (same = true ↔
          ∃ y, pre.getLast? = some y ∧ (HasId.id (mem x) : ObjectId) = HasId.id (mem y))) := by
  refine ⟨_, runCalls_feedSwapAll x pre EntityTracker.new rfl, ?_⟩
  cases hl : pre.getLast? with
  | none =>
    simp [EntityTracker.new, EntityTracker.cur, EntityTracker.prev, EntityTracker.next,
      EntityTracker.has_prev, EntityTracker.has_next, EntityTracker.has_cur,
      EntityTracker.prev_is_same_entity, ObjectWrapper.obj]
  | some y =>
    have hne : pre ≠ [] := by
      intro h
      subst h
      simp at hl
    simp [EntityTracker.new, EntityTracker.cur, EntityTracker.prev, EntityTracker.next,
      EntityTracker.has_prev, EntityTracker.has_next, EntityTracker.has_cur,
      EntityTracker.prev_is_same_entity, ObjectWrapper.obj, hne]

/-- Witness of C5: A (address 0) and A2 (address 1) share identity 7, B
(address 2) has identity 9.  After A: current A, previous absent.  After A,
A2: previous A, current A2, same entity.  After A, A2, B: previous A2, current
B, not the same entity. -/
theorem feed_swap_sequence_witness :
    (∃ tr, runCalls (EntityTracker.new : EntityTracker SampleObject)
        (feedSwapAll [{ addr := 0 }]) = Except.ok tr ∧
      tr.cur sampleMemory = some { id := 7, version := 1 } ∧ tr.has_prev = false) ∧
    (∃ tr, runCalls (EntityTracker.new : EntityTracker SampleObject)
        (feedSwapAll [{ addr := 0 }, { addr := 1 }]) = Except.ok tr ∧
      tr.prev sampleMemory = some { id := 7, version := 1 } ∧
      tr.cur sampleMemory = some { id := 7, version := 2 } ∧
      tr.prev_is_same_entity sampleMemory = some true) ∧
    (∃ tr, runCalls (EntityTracker.new : EntityTracker SampleObject)
        (feedSwapAll [{ addr := 0 }, { addr := 1 }, { addr := 2 }]) = Except.ok tr ∧
      tr.prev sampleMemory = some { id := 7, version := 2 } ∧
      tr.cur sampleMemory = some { id := 9, version := 1 } ∧
      tr.prev_is_same_entity sampleMemory = some false) := by
  refine ⟨?_, ?_, ?_⟩
  · obtain ⟨tr, hrun, hcur, _, hprev, _⟩ := feed_swap_sequence sampleMemory [] { addr := 0 }
    exact ⟨tr, hrun, hcur, hprev rfl⟩
  · obtain ⟨tr, hrun, hcur, hprev, _, _, _, same, hsame, hiff⟩ :=
      feed_swap_sequence sampleMemory [{ addr := 0 }] { addr := 1 }
    refine ⟨tr, hrun, hprev, hcur, ?_⟩
    rw [hsame, hiff.mpr ⟨{ addr := 0 }, rfl, rfl⟩]
  · obtain ⟨tr, hrun, hcur, hprev, _, _, _, same, hsame, hiff⟩ :=
      feed_swap_sequence sampleMemory [{ addr := 0 }, { addr := 1 }] { addr := 2 }
    refine ⟨tr, hrun, hprev, hcur, ?_⟩
    have hno : ¬ same = true := by
      intro h
      obtain ⟨y, hy, hid⟩ := hiff.mp h
      simp at hy
      subst hy
      revert hid
      decide
    rw [hsame]
    simpa using hno

/-- C6: for every tracker state, `prev_is_same_entity()` is defined (it reads
no absent slot) and returns true iff both the previous and the current slot
are present and their identities are equal; it returns false whenever either
slot is absent. -/
theorem prev_is_same_entity_iff {TObject : Type} [HasId TObject] (mem : Memory TObject)
    (tr : EntityTracker TObject) :
    (∃ same, tr.prev_is_same_entity mem = some same ∧
      (same = true ↔
        ∃ p c, tr.prev mem = some p ∧ tr.cur mem = some c ∧
          (HasId.id c : ObjectId) = HasId.id p)) ∧
    (tr.has_prev = false ∨ tr.has_cur = false → tr.prev_is_same_entity mem = some false) := by
  obtain ⟨p, c, n⟩ := tr
  cases p <;> cases c <;>
    simp [EntityTracker.prev_is_same_entity, EntityTracker.prev, EntityTracker.cur,
      EntityTracker.has_prev, EntityTracker.has_cur]

/-- C7: for every tracker state, `next_is_same_entity()` is defined and
returns true iff both the current and the next slot are present and their
identities are equal; in particular it is false when next is absent and when
next is present with a different identity. -/
theorem next_is_same_entity_iff {TObject : Type} [HasId TObject] (mem : Memory TObject)
    (tr : EntityTracker TObject) :
    (∃ same, tr.next_is_same_entity mem = some same ∧
      (same = true ↔
        ∃ c n, tr.cur mem = some c ∧ tr.next mem = some n ∧
          (HasId.id c : ObjectId) = HasId.id n)) ∧
    (tr.has_next = false → tr.next_is_same_entity mem = some false) ∧
    (∀ c n, tr.cur mem = some c → tr.next mem = some n →
      (HasId.id c : ObjectId) ≠ HasId.id n → tr.next_is_same_entity mem = some false) := by
  obtain ⟨p, c, n⟩ := tr
  cases c <;> cases n <;>
    simp [EntityTracker.next_is_same_entity, EntityTracker.next, EntityTracker.cur,
      EntityTracker.has_next, EntityTracker.has_cur]

/-! ## Theorems: geometry builder -/

/-- One round of the loop of `forWay` appends the usable coordinate of the
node reference, if it has one, to the vector `c`. -/
theorem forWayNode_coords {F : Type} (b : GeomBuilder F) (proj : Project F) (t : Time)
    (st : List (LogLine F) × List (Coordinate F)) (node_ref : NodeRef) :
    (b.forWayNode proj t st node_ref).2 = st.2 ++ (usableCoordinate b proj t node_ref).toList := by
  unfold GeomBuilder.forWayNode usableCoordinate
  cases hfound : (b.m_nodestore.lookup node_ref.ref t).2 <;>
    cases hkeep : b.m_keepLatLng <;>
    cases hproj : (proj.toMercator (b.m_nodestore.lookup node_ref.ref t).1.lon
      (b.m_nodestore.lookup node_ref.ref t).1.lat).1 <;>
    simp [hfound, hkeep, hproj]

/-- The loop of `forWay` leaves in the vector `c` what it held before,
followed by the usable coordinates of the node references in order. -/
theorem forWay_loop_coords {F : Type} (b : GeomBuilder F) (proj : Project F) (t : Time)
    (nodes : List NodeRef) :
    ∀ st : List (LogLine F) × List (Coordinate F),
      (nodes.foldl (b.forWayNode proj t) st).2 = st.2 ++ usableCoordinates b proj t nodes := by
  induction nodes with
  | nil => intro st; simp [usableCoordinates]
  | cons n rest ih =>
    intro st
    rw [List.foldl_cons, ih, forWayNode_coords]
    unfold usableCoordinates
    cases h : usableCoordinate b proj t n <;> simp [List.filterMap_cons, h]

/-- The vector `c` of `forWay` after its loop is the list of usable
coordinates. -/
theorem forWay_c_eq_usable {F : Type} (b : GeomBuilder F) (proj : Project F) (t : Time)
    (nodes : List NodeRef) :
    (nodes.foldl (b.forWayNode proj t) ([], [])).2 = usableCoordinates b proj t nodes := by
  rw [forWay_loop_coords]; rfl

/-- With fewer than two usable coordinates `forWay` returns `NULL` without a
request to the factory. -/
theorem forWay_of_lt_two {F G : Type} [BEq F] (b : GeomBuilder F) (proj : Project F)
    (factory : GeometryFactory F G) (nodes : List NodeRef) (t : Time) (hint : Bool)
    (h : (usableCoordinates b proj t nodes).length < 2) :
    (b.forWay proj factory nodes t hint).requests = [] ∧
    (b.forWay proj factory nodes t hint).result = none := by
  unfold GeomBuilder.forWay
  simp only [forWay_c_eq_usable]
  simp [h]

/-- With at least two usable coordinates `forWay` makes exactly one request
to the factory: the polygon with the usable coordinates as shell when the
hint is set, the first usable coordinate equals the last and there are at
least four, the line string through the usable coordinates otherwise; and it
returns what the factory returned, tagged with SRID 900913, or `NULL` when
the factory threw. -/
theorem forWay_of_two_le {F G : Type} [BEq F] (b : GeomBuilder F) (proj : Project F)
    (factory : GeometryFactory F G) (nodes : List NodeRef) (t : Time) (hint : Bool)
    (h : 2 ≤ (usableCoordinates b proj t nodes).length) :
    (b.forWay proj factory nodes t hint).requests =
      [if hint && GeomBuilder.frontEqualsBack (usableCoordinates b proj t nodes) &&
          decide ((usableCoordinates b proj t nodes).length ≥ 4)
        then EngineRequest.polygon (usableCoordinates b proj t nodes)
        else EngineRequest.lineString (usableCoordinates b proj t nodes)] ∧
    (b.forWay proj factory nodes t hint).result =
      match factory.create
        (if hint && GeomBuilder.frontEqualsBack (usableCoordinates b proj t nodes) &&
            decide ((usableCoordinates b proj t nodes).length ≥ 4)
          then EngineRequest.polygon (usableCoordinates b proj t nodes)
          else EngineRequest.lineString (usableCoordinates b proj t nodes)) with
      | Except.error _ => none
      | Except.ok geom => geom.map (fun g => g.setSRID 900913) := by
  have hlt : ¬ (usableCoordinates b proj t nodes).length < 2 := by omega
  unfold GeomBuilder.forWay
  simp only [forWay_c_eq_usable]
  simp only [hlt, if_false]
  split <;> simp_all

/-- What `frontEqualsBack` computes on a list: the first and the last element
exist and compare equal. -/
theorem frontEqualsBack_iff {F : Type} [BEq F] (c : List (Coordinate F)) :
    GeomBuilder.frontEqualsBack c = true ↔
      ∃ first last, c.head? = some first ∧ c.getLast? = some last ∧
        first.equals2D last = true := by
  unfold GeomBuilder.frontEqualsBack
  cases hh : c.head? <;> cases hl : c.getLast? <;> simp

/-- The number of usable coordinates is the number of node references that
have one: one point per such reference. -/
theorem usableCoordinates_length {F : Type} (b : GeomBuilder F) (proj : Project F) (t : Time)
    (nodes : List NodeRef) :
    (usableCoordinates b proj t nodes).length =
      nodes.countP (fun r => (usableCoordinate b proj t r).isSome) := by
  induction nodes with
  | nil => rfl
  | cons n rest ih =>
    unfold usableCoordinates at ih ⊢
    cases h : usableCoordinate b proj t n <;> simp [List.filterMap_cons, List.countP_cons, h, ih]

/-- C8: when at least two coordinates are usable, `forWay` makes exactly one
request to the geometry engine; it is a polygon request iff the hint is true,
the first and last usable coordinates compare equal and at least four are
usable, and a line request in every other case. -/
theorem forWay_shape_decision {F G : Type} [BEq F] (b : GeomBuilder F) (proj : Project F)
    (factory : GeometryFactory F G) (nodes : List NodeRef) (t : Time) (hint : Bool)
    (h : 2 ≤ (usableCoordinates b proj t nodes).length) :
    ∃ request, (b.forWay proj factory nodes t hint).requests = [request] ∧
      (request.isPolygon = true ↔
        (hint = true ∧
          (∃ first last, (usableCoordinates b proj t nodes).head? = some first ∧
            (usableCoordinates b proj t nodes).getLast? = some last ∧
            first.equals2D last = true) ∧
          4 ≤ (usableCoordinates b proj t nodes).length)) ∧
      (request.isLineString = true ↔
        ¬ (hint = true ∧
          (∃ first last, (usableCoordinates b proj t nodes).head? = some first ∧
            (usableCoordinates b proj t nodes).getLast? = some last ∧
            first.equals2D last = true) ∧
          4 ≤ (usableCoordinates b proj t nodes).length)) := by
  refine ⟨_, (forWay_of_two_le b proj factory nodes t hint h).1, ?_⟩
  rw [← frontEqualsBack_iff]
  by_cases hc : (hint && GeomBuilder.frontEqualsBack (usableCoordinates b proj t nodes) &&
      decide ((usableCoordinates b proj t nodes).length ≥ 4)) = true
  · rw [if_pos hc]
    simp only [Bool.and_eq_true, decide_eq_true_eq] at hc
    simp [EngineRequest.isPolygon, EngineRequest.isLineString, hc]
  · rw [if_neg hc]
    simp only [Bool.and_eq_true, decide_eq_true_eq] at hc
    simp only [EngineRequest.isPolygon, EngineRequest.isLineString]
    constructor
    · constructor
      · intro hf; cases hf
      · intro hall; exact absurd ⟨⟨hall.1, hall.2.1⟩, hall.2.2⟩ hc
    · constructor
      · intro _ hall; exact hc ⟨⟨hall.1, hall.2.1⟩, hall.2.2⟩
      · intro _; trivial

/-- Witness of C8: the closed way 1, 2, 3, 1 on the sample store with the area
hint gives a polygon request. -/
theorem forWay_shape_decision_witness :
    2 ≤ (usableCoordinates sampleBuilder sampleProject 0 [⟨1⟩, ⟨2⟩, ⟨3⟩, ⟨1⟩]).length ∧
    ∃ request,
      (sampleBuilder.forWay sampleProject sampleFactory [⟨1⟩, ⟨2⟩, ⟨3⟩, ⟨1⟩] 0 true).requests =
        [request] ∧
      request.isPolygon = true := by
  have h2 : 2 ≤ (usableCoordinates sampleBuilder sampleProject 0 [⟨1⟩, ⟨2⟩, ⟨3⟩, ⟨1⟩]).length := by
    decide
  obtain ⟨request, hreq, hpoly, _⟩ :=
    forWay_shape_decision sampleBuilder sampleProject sampleFactory [⟨1⟩, ⟨2⟩, ⟨3⟩, ⟨1⟩] 0 true h2
  refine ⟨h2, request, hreq, hpoly.mpr ⟨rfl, ⟨⟨0, 0, none⟩, ⟨0, 0, none⟩, ?_, ?_, ?_⟩, ?_⟩⟩
  · decide
  · decide
  · decide
  · decide

/-- C9: if fewer than two coordinates are usable, `forWay` returns no
geometry and makes no request to the geometry engine. -/
theorem forWay_too_few_coordinates {F G : Type} [BEq F] (b : GeomBuilder F) (proj : Project F)
    (factory : GeometryFactory F G) (nodes : List NodeRef) (t : Time) (hint : Bool)
    (h : (usableCoordinates b proj t nodes).length < 2) :
    (b.forWay proj factory nodes t hint).result = none ∧
    (b.forWay proj factory nodes t hint).requests = [] :=
  ⟨(forWay_of_lt_two b proj factory nodes t hint h).2,
    (forWay_of_lt_two b proj factory nodes t hint h).1⟩

/-- Witness of C9: a way of three references of which only node 1 resolves. -/
theorem forWay_too_few_coordinates_witness :
    (usableCoordinates sampleBuilder sampleProject 0 [⟨7⟩, ⟨1⟩, ⟨8⟩]).length = 1 ∧
    (sampleBuilder.forWay sampleProject sampleFactory [⟨7⟩, ⟨1⟩, ⟨8⟩] 0 true).result = none ∧
    (sampleBuilder.forWay sampleProject sampleFactory [⟨7⟩, ⟨1⟩, ⟨8⟩] 0 true).requests = [] :=
  ⟨by decide,
    forWay_too_few_coordinates sampleBuilder sampleProject sampleFactory [⟨7⟩, ⟨1⟩, ⟨8⟩] 0 true
      (by decide)⟩

/-- C10: whenever `forWay` produces a geometry, it made exactly one request to
the geometry engine and the coordinate sequence handed over with it (the
shell of the polygon or the path of the line) is exactly the list of usable
coordinates: in node-reference order, one point per reference that resolves
(and projects), duplicates kept. -/
theorem forWay_hands_over_usable {F G : Type} [BEq F] (b : GeomBuilder F) (proj : Project F)
    (factory : GeometryFactory F G) (nodes : List NodeRef) (t : Time) (hint : Bool)
    (h : (b.forWay proj factory nodes t hint).result.isSome = true) :
    ∃ request, (b.forWay proj factory nodes t hint).requests = [request] ∧
      request.coords = nodes.filterMap (usableCoordinate b proj t) ∧
      request.coords.length = nodes.countP (fun r => (usableCoordinate b proj t r).isSome) := by
  have h2 : 2 ≤ (usableCoordinates b proj t nodes).length := by
    by_contra hlt
    have hnone := (forWay_of_lt_two b proj factory nodes t hint (by omega)).2
    rw [hnone] at h
    simp at h
  refine ⟨_, (forWay_of_two_le b proj factory nodes t hint h2).1, ?_⟩
  have hc : (if hint && GeomBuilder.frontEqualsBack (usableCoordinates b proj t nodes) &&
        decide ((usableCoordinates b proj t nodes).length ≥ 4)
      then EngineRequest.polygon (usableCoordinates b proj t nodes)
      else EngineRequest.lineString (usableCoordinates b proj t nodes)).coords =
      usableCoordinates b proj t nodes := by
    split <;> rfl
  rw [hc, usableCoordinates_length]
  exact ⟨rfl, rfl⟩

/-- Witness of C10: the usable coordinates (0,0), (1,0), (1,1), (0,0).  With
the area hint the builder returns a polygon whose ring is these four points,
first equal to last; without it a line through the same four points. -/
theorem forWay_hands_over_usable_witness :
    (sampleBuilder.forWay sampleProject sampleFactory [⟨1⟩, ⟨2⟩, ⟨3⟩, ⟨1⟩] 0 true).result =
      some { shape := EngineRequest.polygon [⟨0, 0, none⟩, ⟨1, 0, none⟩, ⟨1, 1, none⟩, ⟨0, 0, none⟩],
             srid := 900913 } ∧
    (sampleBuilder.forWay sampleProject sampleFactory [⟨1⟩, ⟨2⟩, ⟨3⟩, ⟨1⟩] 0 false).result =
      some { shape := EngineRequest.lineString
               [⟨0, 0, none⟩, ⟨1, 0, none⟩, ⟨1, 1, none⟩, ⟨0, 0, none⟩],
             srid := 900913 } ∧
    (∃ request,
      (sampleBuilder.forWay sampleProject sampleFactory [⟨1⟩, ⟨2⟩, ⟨3⟩, ⟨1⟩] 0 true).requests =
        [request] ∧
      request.coords = [⟨0, 0, none⟩, ⟨1, 0, none⟩, ⟨1, 1, none⟩, ⟨0, 0, none⟩] ∧
      request.coords.length = 4) ∧
    (∃ request,
      (sampleBuilder.forWay sampleProject sampleFactory [⟨1⟩, ⟨2⟩, ⟨3⟩, ⟨1⟩] 0 false).requests =
        [request] ∧
      request.coords = [⟨0, 0, none⟩, ⟨1, 0, none⟩, ⟨1, 1, none⟩, ⟨0, 0, none⟩] ∧
      request.coords.length = 4) := by
  refine ⟨by decide, by decide, ?_, ?_⟩
  · obtain ⟨request, hreq, hcoords, hlen⟩ :=
      forWay_hands_over_usable sampleBuilder sampleProject sampleFactory
        [⟨1⟩, ⟨2⟩, ⟨3⟩, ⟨1⟩] 0 true (by decide)
    exact ⟨request, hreq, hcoords.trans (by decide), hlen.trans (by decide)⟩
  · obtain ⟨request, hreq, hcoords, hlen⟩ :=
      forWay_hands_over_usable sampleBuilder sampleProject sampleFactory
        [⟨1⟩, ⟨2⟩, ⟨3⟩, ⟨1⟩] 0 false (by decide)
    exact ⟨request, hreq, hcoords.trans (by decide), hlen.trans (by decide)⟩

/-- Every request `forWay` makes to the factory carries the usable
coordinates. -/
theorem forWay_requests_coords {F G : Type} [BEq F] (b : GeomBuilder F) (proj : Project F)
    (factory : GeometryFactory F G) (nodes : List NodeRef) (t : Time) (hint : Bool) :
    ∀ request ∈ (b.forWay proj factory nodes t hint).requests,
      request.coords = usableCoordinates b proj t nodes := by
  intro request hmem
  by_cases h : (usableCoordinates b proj t nodes).length < 2
  · rw [(forWay_of_lt_two b proj factory nodes t hint h).1] at hmem
    simp at hmem
  · rw [(forWay_of_two_le b proj factory nodes t hint (by omega)).1] at hmem
    simp only [List.mem_singleton] at hmem
    subst hmem
    split <;> rfl

/-- When geographic coordinates are kept, one round of the loop of `forWay`
does not depend on the projection. -/
theorem forWayNode_keep {F : Type} (b : GeomBuilder F) (proj proj2 : Project F) (t : Time)
    (hkeep : b.m_keepLatLng = true) :
    b.forWayNode proj t = b.forWayNode proj2 t := by
  funext st node_ref
  simp [GeomBuilder.forWayNode, hkeep]

/-- The usable coordinates when geographic coordinates are kept: the
coordinates the store returns. -/
theorem usableCoordinates_keep {F : Type} (b : GeomBuilder F) (proj : Project F) (t : Time)
    (nodes : List NodeRef) (hkeep : b.m_keepLatLng = true) :
    usableCoordinates b proj t nodes =
      (resolvedCoordinates b.m_nodestore t nodes).map
        (fun info => { x := info.lon, y := info.lat, z := none }) := by
  unfold usableCoordinates resolvedCoordinates
  induction nodes with
  | nil => rfl
  | cons n rest ih =>
    cases hf : (b.m_nodestore.lookup n.ref t).2 <;>
      simp [List.filterMap_cons, usableCoordinate, hkeep, hf, ih]

/-- The usable coordinates when geographic coordinates are not kept: the
images under the projection of the coordinates the store returns, where the
projection succeeds. -/
theorem usableCoordinates_project {F : Type} (b : GeomBuilder F) (proj : Project F) (t : Time)
    (nodes : List NodeRef) (hkeep : b.m_keepLatLng = false) :
    usableCoordinates b proj t nodes =
      (resolvedCoordinates b.m_nodestore t nodes).filterMap
        (fun info =>
          if (proj.toMercator info.lon info.lat).1 then
            some { x := (proj.toMercator info.lon info.lat).2.1,
                   y := (proj.toMercator info.lon info.lat).2.2, z := none }
          else none) := by
  unfold usableCoordinates resolvedCoordinates
  induction nodes with
  | nil => rfl
  | cons n rest ih =>
    cases hf : (b.m_nodestore.lookup n.ref t).2 <;>
      simp [List.filterMap_cons, usableCoordinate, hkeep, hf, ih]

/-- C11: with `keepLatLng` true the result of `forWay` (and its whole run)
does not depend on the projection, and the coordinates handed to the geometry
engine are exactly the coordinates the store returns; with it false they are
the projection's images of the coordinates the store returns, for those on
which the projection succeeds. -/
theorem forWay_keepLatLng {F G : Type} [BEq F] (b : GeomBuilder F) (proj : Project F)
    (factory : GeometryFactory F G) (nodes : List NodeRef) (t : Time) (hint : Bool) :
    (b.m_keepLatLng = true →
      (∀ proj2 : Project F,
        b.forWay proj2 factory nodes t hint = b.forWay proj factory nodes t hint) ∧
      (∀ request ∈ (b.forWay proj factory nodes t hint).requests,
        request.coords =
          (resolvedCoordinates b.m_nodestore t nodes).map
            (fun info => { x := info.lon, y := info.lat, z := none }))) ∧
    (b.m_keepLatLng = false →
      ∀ request ∈ (b.forWay proj factory nodes t hint).requests,
        request.coords =
          (resolvedCoordinates b.m_nodestore t nodes).filterMap
            (fun info =>
              if (proj.toMercator info.lon info.lat).1 then
                some { x := (proj.toMercator info.lon info.lat).2.1,
                       y := (proj.toMercator info.lon info.lat).2.2, z := none }
              else none)) := by
  refine ⟨fun hkeep => ⟨fun proj2 => ?_, fun request hmem => ?_⟩, fun hkeep request hmem => ?_⟩
  · unfold GeomBuilder.forWay
    rw [forWayNode_keep b proj2 proj t hkeep]
  · rw [forWay_requests_coords b proj factory nodes t hint request hmem,
      usableCoordinates_keep b proj t nodes hkeep]
  · rw [forWay_requests_coords b proj factory nodes t hint request hmem,
      usableCoordinates_project b proj t nodes hkeep]

/-- Witness of C11: on the way 1, 2, 3, 1 the builder that keeps geographic
coordinates returns the same polygon of unprojected points under the sample
projection and under the projection that always fails; the builder that
projects hands over the points scaled by the sample projection. -/
theorem forWay_keepLatLng_witness :
    sampleBuilder.m_keepLatLng = true ∧
    sampleBuilder.forWay failingProject sampleFactory [⟨1⟩, ⟨2⟩, ⟨3⟩, ⟨1⟩] 0 true =
      sampleBuilder.forWay sampleProject sampleFactory [⟨1⟩, ⟨2⟩, ⟨3⟩, ⟨1⟩] 0 true ∧
    (sampleBuilder.forWay sampleProject sampleFactory [⟨1⟩, ⟨2⟩, ⟨3⟩, ⟨1⟩] 0 true).result =
      some { shape := EngineRequest.polygon [⟨0, 0, none⟩, ⟨1, 0, none⟩, ⟨1, 1, none⟩, ⟨0, 0, none⟩],
             srid := 900913 } ∧
    (sampleBuilder.keepLatLng false).m_keepLatLng = false ∧
    (∀ request ∈ ((sampleBuilder.keepLatLng false).forWay sampleProject sampleFactory
        [⟨1⟩, ⟨2⟩, ⟨3⟩, ⟨1⟩] 0 true).requests,
      request.coords = [⟨0, 0, none⟩, ⟨100, 0, none⟩, ⟨100, 100, none⟩, ⟨0, 0, none⟩]) := by
  refine ⟨rfl, ?_, by decide, rfl, ?_⟩
  · exact ((forWay_keepLatLng sampleBuilder sampleProject sampleFactory
      [⟨1⟩, ⟨2⟩, ⟨3⟩, ⟨1⟩] 0 true).1 rfl).1 failingProject
  · intro request hmem
    rw [(forWay_keepLatLng (sampleBuilder.keepLatLng false) sampleProject sampleFactory
      [⟨1⟩, ⟨2⟩, ⟨3⟩, ⟨1⟩] 0 true).2 rfl request hmem]
    decide

/-- The usable coordinates when geographic coordinates are not kept: the node
references that both resolve and project, each replaced by its projected
coordinate. -/
theorem usableCoordinates_filter_map {F : Type} (b : GeomBuilder F) (proj : Project F)
    (t : Time) (nodes : List NodeRef) (hkeep : b.m_keepLatLng = false) :
    usableCoordinates b proj t nodes =
      (nodes.filter (fun r => resolves b.m_nodestore t r && projects b.m_nodestore proj t r)).map
        (projectedCoordinate b.m_nodestore proj t) := by
  unfold usableCoordinates
  induction nodes with
  | nil => rfl
  | cons n rest ih =>
    cases hf : (b.m_nodestore.lookup n.ref t).2 <;>
      cases hp : (proj.toMercator (b.m_nodestore.lookup n.ref t).1.lon
        (b.m_nodestore.lookup n.ref t).1.lat).1 <;>
      simp [List.filterMap_cons, List.filter_cons, usableCoordinate, resolves, projects,
        projectedCoordinate, hkeep, hf, hp, ih]

/-- C12: with `keepLatLng` false the vector `c` that `forWay` assembles is the
node-reference list filtered to the references that both resolve and project
successfully, each replaced by its projected coordinate: a failed projection
drops that coordinate and no other.  Hence, when at least two coordinates
remain and the geometry engine accepts them, `forWay` returns a geometry. -/
theorem forWay_drops_failed_projections {F G : Type} [BEq F] (b : GeomBuilder F)
    (proj : Project F) (factory : GeometryFactory F G) (nodes : List NodeRef) (t : Time)
    (hint : Bool) (hkeep : b.m_keepLatLng = false) :
    (nodes.foldl (b.forWayNode proj t) ([], [])).2 =
      (nodes.filter (fun r => resolves b.m_nodestore t r && projects b.m_nodestore proj t r)).map
        (projectedCoordinate b.m_nodestore proj t) ∧
    (2 ≤ (nodes.filter
        (fun r => resolves b.m_nodestore t r && projects b.m_nodestore proj t r)).length →
      (∀ request : EngineRequest F,
        request.coords =
          (nodes.filter
            (fun r => resolves b.m_nodestore t r && projects b.m_nodestore proj t r)).map
            (projectedCoordinate b.m_nodestore proj t) →
        ∃ g, factory.create request = Except.ok (some g)) →
      (b.forWay proj factory nodes t hint).result.isSome = true) := by
  have hu := usableCoordinates_filter_map b proj t nodes hkeep
  refine ⟨by rw [forWay_c_eq_usable, hu], fun h2 haccept => ?_⟩
  have hlen : 2 ≤ (usableCoordinates b proj t nodes).length := by
    rw [hu, List.length_map]; exact h2
  have hrun := forWay_of_two_le b proj factory nodes t hint hlen
  obtain ⟨g, hg⟩ := haccept
    (if hint && GeomBuilder.frontEqualsBack (usableCoordinates b proj t nodes) &&
        decide ((usableCoordinates b proj t nodes).length ≥ 4)
      then EngineRequest.polygon (usableCoordinates b proj t nodes)
      else EngineRequest.lineString (usableCoordinates b proj t nodes))
    (by rw [← hu]; split <;> rfl)
  rw [hrun.2, hg]
  rfl

/-- Witness of C12: in the way 1, 4, 2, 3 the projection of node 4 (latitude
90) fails; the three other coordinates remain and the builder returns a
geometry. -/
theorem forWay_drops_failed_projections_witness :
    ([⟨1⟩, ⟨4⟩, ⟨2⟩, ⟨3⟩] : List NodeRef).foldl
        ((sampleBuilder.keepLatLng false).forWayNode sampleProject 0) ([], []) =
      ([], [⟨0, 0, none⟩, ⟨100, 0, none⟩, ⟨100, 100, none⟩]) ∧
    ((sampleBuilder.keepLatLng false).forWay sampleProject sampleFactory
      [⟨1⟩, ⟨4⟩, ⟨2⟩, ⟨3⟩] 0 true).result.isSome = true :=
  ⟨by decide,
    (forWay_drops_failed_projections (sampleBuilder.keepLatLng false) sampleProject
      sampleFactory [⟨1⟩, ⟨4⟩, ⟨2⟩, ⟨3⟩] 0 true rfl).2 (by decide)
      (fun _ _ => ⟨_, rfl⟩)⟩

/-- C13: with the factory as an operation that may throw, `forWay` is total
and returns a pointer in every case: `NULL` when the factory throws on the
assembled coordinates, and a geometry iff at least two coordinates are usable
and the constructor chosen by the shape decision returns a geometry. -/
theorem forWay_absorbs_engine_failure {F G : Type} [BEq F] (b : GeomBuilder F)
    (proj : Project F) (factory : GeometryFactory F G) (nodes : List NodeRef) (t : Time)
    (hint : Bool) :
    (∀ request ∈ (b.forWay proj factory nodes t hint).requests,
      ∀ e, factory.create request = Except.error e →
        (b.forWay proj factory nodes t hint).result = none) ∧
    ((b.forWay proj factory nodes t hint).result.isSome = true ↔
      2 ≤ (usableCoordinates b proj t nodes).length ∧
      ∃ g, factory.create
        (if hint && GeomBuilder.frontEqualsBack (usableCoordinates b proj t nodes) &&
            decide ((usableCoordinates b proj t nodes).length ≥ 4)
          then EngineRequest.polygon (usableCoordinates b proj t nodes)
          else EngineRequest.lineString (usableCoordinates b proj t nodes)) =
        Except.ok (some g)) := by
  by_cases h : (usableCoordinates b proj t nodes).length < 2
  · have hrun := forWay_of_lt_two b proj factory nodes t hint h
    refine ⟨fun request hmem => ?_, ?_⟩
    · rw [hrun.1] at hmem
      simp at hmem
    · rw [hrun.2]
      constructor
      · intro hsome; simp at hsome
      · intro hge; omega
  · have h2 : 2 ≤ (usableCoordinates b proj t nodes).length := by omega
    have hrun := forWay_of_two_le b proj factory nodes t hint h2
    refine ⟨fun request hmem e he => ?_, ?_⟩
    · rw [hrun.1] at hmem
      simp only [List.mem_singleton] at hmem
      subst hmem
      rw [hrun.2, he]
    · rw [hrun.2]
      cases hc : factory.create
        (if hint && GeomBuilder.frontEqualsBack (usableCoordinates b proj t nodes) &&
            decide ((usableCoordinates b proj t nodes).length ≥ 4)
          then EngineRequest.polygon (usableCoordinates b proj t nodes)
          else EngineRequest.lineString (usableCoordinates b proj t nodes)) with
      | error e => simp
      | ok geom =>
        cases geom with
        | none => simp
        | some g => simp [h2]

/-- Witness of C13: the factory that rejects every request is asked for the
polygon of the way 1, 2, 3, 1 and `forWay` returns `NULL`; with the accepting
factory it returns a geometry. -/
theorem forWay_absorbs_engine_failure_witness :
    (sampleBuilder.forWay sampleProject rejectingFactory [⟨1⟩, ⟨2⟩, ⟨3⟩, ⟨1⟩] 0 true).requests =
      [EngineRequest.polygon [⟨0, 0, none⟩, ⟨1, 0, none⟩, ⟨1, 1, none⟩, ⟨0, 0, none⟩]] ∧
    (sampleBuilder.forWay sampleProject rejectingFactory [⟨1⟩, ⟨2⟩, ⟨3⟩, ⟨1⟩] 0 true).result =
      none ∧
    (sampleBuilder.forWay sampleProject sampleFactory [⟨1⟩, ⟨2⟩, ⟨3⟩, ⟨1⟩] 0 true).result.isSome =
      true := by
  refine ⟨by decide, ?_, ?_⟩
  · exact (forWay_absorbs_engine_failure sampleBuilder sampleProject rejectingFactory
      [⟨1⟩, ⟨2⟩, ⟨3⟩, ⟨1⟩] 0 true).1
      (EngineRequest.polygon [⟨0, 0, none⟩, ⟨1, 0, none⟩, ⟨1, 1, none⟩, ⟨0, 0, none⟩])
      (by decide) { what := "IllegalArgumentException" } rfl
  · exact (forWay_absorbs_engine_failure sampleBuilder sampleProject sampleFactory
      [⟨1⟩, ⟨2⟩, ⟨3⟩, ⟨1⟩] 0 true).2.mpr ⟨by decide, _, rfl⟩

/-- C14: every geometry `forWay` returns, polygon or line, with or without
reprojection, carries the SRID 900913. -/
theorem forWay_srid {F G : Type} [BEq F] (b : GeomBuilder F) (proj : Project F)
    (factory : GeometryFactory F G) (nodes : List NodeRef) (t : Time) (hint : Bool)
    (g : Geometry G) (h : (b.forWay proj factory nodes t hint).result = some g) :
    g.srid = 900913 := by
  by_cases hlt : (usableCoordinates b proj t nodes).length < 2
  · rw [(forWay_of_lt_two b proj factory nodes t hint hlt).2] at h
    cases h
  · rw [(forWay_of_two_le b proj factory nodes t hint (by omega)).2] at h
    split at h
    · cases h
    · rename_i geom _
      cases geom with
      | none => cases h
      | some g0 =>
        simp only [Option.map_some', Option.some.injEq] at h
        rw [← h]
        rfl

/-- Witness of C14: the polygon built from unprojected coordinates and the
line built from projected coordinates both carry 900913, although the sample
factory creates geometries with SRID -1. -/
theorem forWay_srid_witness :
    (sampleBuilder.forWay sampleProject sampleFactory [⟨1⟩, ⟨2⟩, ⟨3⟩, ⟨1⟩] 0 true).result =
      some { shape := EngineRequest.polygon [⟨0, 0, none⟩, ⟨1, 0, none⟩, ⟨1, 1, none⟩, ⟨0, 0, none⟩],
             srid := 900913 } ∧
    ({ shape := EngineRequest.polygon [⟨0, 0, none⟩, ⟨1, 0, none⟩, ⟨1, 1, none⟩, ⟨0, 0, none⟩],
       srid := 900913 } : Geometry (EngineRequest Int)).srid = 900913 ∧
    ({ shape := EngineRequest.lineString [⟨0, 0, none⟩, ⟨100, 0, none⟩],
       srid := 900913 } : Geometry (EngineRequest Int)).srid = 900913 :=
  ⟨by decide,
    forWay_srid sampleBuilder sampleProject sampleFactory [⟨1⟩, ⟨2⟩, ⟨3⟩, ⟨1⟩] 0 true _
      (by decide),
    forWay_srid (sampleBuilder.keepLatLng false) sampleProject sampleFactory [⟨1⟩, ⟨2⟩] 0 false
      { shape := EngineRequest.lineString [⟨0, 0, none⟩, ⟨100, 0, none⟩], srid := 900913 }
      (by decide)⟩

/-- A run of `forWay` reads the node store and the three flags `m_keepLatLng`,
`m_debug`, `m_showerrors` of the builder, and nothing else of it. -/
theorem forWay_congr {F G : Type} [BEq F] (b1 b2 : GeomBuilder F) (proj : Project F)
    (factory : GeometryFactory F G) (nodes : List NodeRef) (t : Time) (hint : Bool)
    (hstore : b1.m_nodestore = b2.m_nodestore) (hkeep : b1.m_keepLatLng = b2.m_keepLatLng)
    (hdebug : b1.m_debug = b2.m_debug) (hshow : b1.m_showerrors = b2.m_showerrors) :
    b1.forWay proj factory nodes t hint = b2.forWay proj factory nodes t hint := by
  have hnode : b1.forWayNode proj t = b2.forWayNode proj t := by
    funext st node_ref
    simp only [GeomBuilder.forWayNode, hstore, hkeep, hdebug]
  unfold GeomBuilder.forWay
  rw [hnode, hshow]

/-- C15: the import-mode and the update-mode builder behave the same: built on
the same store and adapter and given the same flag settings, an
`ImportGeomBuilder` and an `UpdateGeomBuilder` give the same run of `forWay`
on every input; and changing `m_isupdate` of any builder changes nothing of
its runs, the flag is never read. -/
theorem import_update_same {F G : Type} [BEq F] (store : Nodestore F) (adapter : DbAdapter)
    (keep debug : Bool) (u1 u2 : Bool) (proj : Project F) (factory : GeometryFactory F G)
    (nodes : List NodeRef) (t : Time) (hint : Bool) :
    (((ImportGeomBuilder store adapter u1).keepLatLng keep).printDebugMessages debug).forWay
        proj factory nodes t hint =
      (((UpdateGeomBuilder store adapter u2).keepLatLng keep).printDebugMessages debug).forWay
        proj factory nodes t hint ∧
    (ImportGeomBuilder store adapter keep).forWay proj factory nodes t hint =
      (UpdateGeomBuilder store adapter keep).forWay proj factory nodes t hint ∧
    (∀ (b : GeomBuilder F) (isUpdate : Bool),
      ({ b with m_isupdate := isUpdate } : GeomBuilder F).forWay proj factory nodes t hint =
        b.forWay proj factory nodes t hint) :=
  ⟨forWay_congr _ _ proj factory nodes t hint rfl rfl rfl rfl,
    forWay_congr _ _ proj factory nodes t hint rfl rfl rfl rfl,
    fun _ _ => forWay_congr _ _ proj factory nodes t hint rfl rfl rfl rfl⟩

/-- C16: the constructor gives `m_debug` and `m_showerrors` the value false
and leaves `m_keepLatLng` without a value.  Two import builders constructed
with the same arguments, with no setter called, return different results for
the way 1, 2, 3, 1 under the sample projection when the uninitialised member
happens to differ: one hands over geographic, the other projected
coordinates. -/
theorem construct_leaves_keepLatLng_unset :
    (∀ (store : Nodestore Int) (adapter : DbAdapter) (isUpdate indeterminate : Bool),
      (GeomBuilder.construct store adapter isUpdate indeterminate).m_debug = false ∧
      (GeomBuilder.construct store adapter isUpdate indeterminate).m_showerrors = false ∧
      (GeomBuilder.construct store adapter isUpdate indeterminate).isKeepingLatLng =
        indeterminate) ∧
    ((ImportGeomBuilder sampleStore {} true).forWay sampleProject sampleFactory
        [⟨1⟩, ⟨2⟩, ⟨3⟩, ⟨1⟩] 0 true).result =
      some { shape := EngineRequest.polygon [⟨0, 0, none⟩, ⟨1, 0, none⟩, ⟨1, 1, none⟩, ⟨0, 0, none⟩],
             srid := 900913 } ∧
    ((ImportGeomBuilder sampleStore {} false).forWay sampleProject sampleFactory
        [⟨1⟩, ⟨2⟩, ⟨3⟩, ⟨1⟩] 0 true).result =
      some { shape := EngineRequest.polygon
               [⟨0, 0, none⟩, ⟨100, 0, none⟩, ⟨100, 100, none⟩, ⟨0, 0, none⟩],
             srid := 900913 } ∧
    ((ImportGeomBuilder sampleStore {} true).forWay sampleProject sampleFactory
        [⟨1⟩, ⟨2⟩, ⟨3⟩, ⟨1⟩] 0 true).result ≠
      ((ImportGeomBuilder sampleStore {} false).forWay sampleProject sampleFactory
        [⟨1⟩, ⟨2⟩, ⟨3⟩, ⟨1⟩] 0 true).result := by
  refine ⟨fun _ _ _ _ => ⟨rfl, rfl, rfl⟩, by decide, by decide, by decide⟩

/-! ## Theorems: references held by the tracker, protocol invariant -/

/-- C17, as the code has it: the window stores references, not copies.  What
`prev()`, `cur()` and `next()` return is read from the driver's memory when
they are called, so a change of that memory leaves them as they were exactly
when it spares the objects the slots refer to; and an entity fed and then
shifted by `swap()` is read back from the address that was fed, whatever the
memory holds there by then. -/
theorem window_reads_driver_memory {TObject : Type} (mem mem2 : Memory TObject)
    (tr : EntityTracker TObject) (e : Ref TObject)
    (h : ∀ w, tr.m_prev = some w ∨ tr.m_cur = some w ∨ tr.m_next = some w →
      mem2 w.obj = mem w.obj) :
    (tr.prev mem2 = tr.prev mem ∧ tr.cur mem2 = tr.cur mem ∧ tr.next mem2 = tr.next mem) ∧
    (tr.has_next = false →
      (tr.feed e).2.next mem2 = some (mem2 e) ∧
      (tr.feed e).2.swap.cur mem2 = some (mem2 e) ∧
      (tr.feed e).2.swap.swap.prev mem2 = some (mem2 e)) := by
  obtain ⟨p, c, n⟩ := tr
  refine ⟨⟨?_, ?_, ?_⟩, ?_⟩
  · cases p with
    | none => rfl
    | some w => simp [EntityTracker.prev, h w (Or.inl rfl)]
  · cases c with
    | none => rfl
    | some w => simp [EntityTracker.cur, h w (Or.inr (Or.inl rfl))]
  · cases n with
    | none => rfl
    | some w => simp [EntityTracker.next, h w (Or.inr (Or.inr rfl))]
  · intro hn
    cases n with
    | some w => simp [EntityTracker.has_next] at hn
    | none =>
      cases c <;>
        simp [EntityTracker.feed, EntityTracker.swap, EntityTracker.next, EntityTracker.cur,
          EntityTracker.prev, ObjectWrapper.obj]

/-- Witness of C17 as amended: the tracker holds A (address 0) as current; the
driver overwrites address 5, which the window does not refer to, and `cur()`
still returns A. -/
theorem window_reads_driver_memory_witness :
    ({ m_prev := none, m_cur := some { object := { addr := 0 } }, m_next := none } :
        EntityTracker SampleObject).cur
        (writeMemory sampleMemory { addr := 5 } { id := 1, version := 1 }) =
      some { id := 7, version := 1 } :=
  ((window_reads_driver_memory sampleMemory
      (writeMemory sampleMemory { addr := 5 } { id := 1, version := 1 })
      { m_prev := none, m_cur := some { object := { addr := 0 } }, m_next := none }
      { addr := 1 }
      (by
        intro w hw
        rcases hw with hw | hw | hw
        · cases hw
        · cases hw; rfl
        · cases hw)).1.2.1).trans rfl

/-- Counterexample to C17: A (address 0) is fed and shifted to current; then
the driver overwrites its object at address 0 with B.  `cur()` returned A
before and returns B after; likewise `next()` right after the feed and
`prev()` after a second `swap()`. -/
theorem fed_entity_aliases_driver_object :
    ((EntityTracker.new : EntityTracker SampleObject).feed { addr := 0 }).2.swap.cur sampleMemory =
      some { id := 7, version := 1 } ∧
    ((EntityTracker.new : EntityTracker SampleObject).feed { addr := 0 }).2.swap.cur
        (writeMemory sampleMemory { addr := 0 } { id := 9, version := 1 }) =
      some { id := 9, version := 1 } ∧
    ((EntityTracker.new : EntityTracker SampleObject).feed { addr := 0 }).2.swap.cur
        (writeMemory sampleMemory { addr := 0 } { id := 9, version := 1 }) ≠
      ((EntityTracker.new : EntityTracker SampleObject).feed { addr := 0 }).2.swap.cur
        sampleMemory ∧
    ((EntityTracker.new : EntityTracker SampleObject).feed { addr := 0 }).2.next
        (writeMemory sampleMemory { addr := 0 } { id := 9, version := 1 }) ≠
      ((EntityTracker.new : EntityTracker SampleObject).feed { addr := 0 }).2.next sampleMemory ∧
    ((EntityTracker.new : EntityTracker SampleObject).feed { addr := 0 }).2.swap.swap.prev
        (writeMemory sampleMemory { addr := 0 } { id := 9, version := 1 }) ≠
      ((EntityTracker.new : EntityTracker SampleObject).feed { addr := 0 }).2.swap.swap.prev
        sampleMemory := by
  refine ⟨by decide, by decide, by decide, by decide, by decide⟩

/-- Along the driver protocol `feed(x); swap()`, started in a state without a
staged next in which a present previous implies a present current, every
state reached after any number of calls has that property. -/
theorem runCalls_take_feedSwapAll {TObject : Type} (objs : List (Ref TObject)) :
    ∀ (tr : EntityTracker TObject), tr.m_next = none →
      (tr.has_prev = true → tr.has_cur = true) →
      ∀ k, ∃ s, runCalls tr ((feedSwapAll objs).take k) = Except.ok s ∧
        (s.has_prev = true → s.has_cur = true) := by
  induction objs with
  | nil =>
    intro tr _ hinv k
    exact ⟨tr, by simp [feedSwapAll, runCalls], hinv⟩
  | cons a rest ih =>
    intro tr hnext hinv k
    obtain ⟨p, c, n⟩ := tr
    simp only at hnext
    subst hnext
    rw [feedSwapAll_cons]
    match k with
    | 0 => exact ⟨_, by simp [runCalls], hinv⟩
    | 1 =>
      refine ⟨{ m_prev := p, m_cur := c, m_next := some { object := a } }, ?_, hinv⟩
      simp [runCalls, EntityTracker.feed]
    | k + 2 =>
      obtain ⟨s, hs, hs_inv⟩ :=
        ih { m_prev := c, m_cur := some { object := a }, m_next := none } rfl (fun _ => rfl) k
      refine ⟨s, ?_, hs_inv⟩
      rw [← hs]
      cases c <;>
        simp [runCalls, EntityTracker.feed, EntityTracker.swap, ObjectWrapper.obj]

/-- C18: under the driver protocol of alternating `feed(x); swap()` from a new
tracker, after every call (each `feed` and each `swap`) the run has reached a
state in which a present previous implies a present current.  For sequences
that only respect the precondition of `feed` this fails: a `swap()` with no
staged next leaves current absent and previous holding the old current, as
after `feed, swap, swap`. -/
theorem prev_implies_cur_under_protocol {TObject : Type} :
    (∀ (objs : List (Ref TObject)) (k : Nat),
      ∃ s, runCalls (EntityTracker.new : EntityTracker TObject) ((feedSwapAll objs).take k) =
          Except.ok s ∧
        (s.has_prev = true → s.has_cur = true)) ∧
    (∀ tr : EntityTracker TObject, tr.has_next = false →
      tr.swap.m_prev = tr.m_cur ∧ tr.swap.has_cur = false) ∧
    (∃ calls : List (Call TObject),
      feedsOnlyWhenNoNext (EntityTracker.new : EntityTracker TObject) calls = true ∧
      ∃ s, runCalls (EntityTracker.new : EntityTracker TObject) calls = Except.ok s ∧
        s.has_prev = true ∧ s.has_cur = false) := by
  refine ⟨fun objs k => ?_, fun tr hn => ?_, ?_⟩
  · refine runCalls_take_feedSwapAll objs EntityTracker.new rfl ?_ k
    intro h
    simp [EntityTracker.new, EntityTracker.has_prev] at h
  · obtain ⟨p, c, n⟩ := tr
    cases n with
    | some w => simp [EntityTracker.has_next] at hn
    | none => cases c <;> simp [EntityTracker.swap, EntityTracker.has_cur, ObjectWrapper.obj]
  · refine ⟨[Call.feed { addr := 0 }, Call.swap, Call.swap], ?_, ?_⟩
    · simp [feedsOnlyWhenNoNext, EntityTracker.new, EntityTracker.has_next, EntityTracker.feed,
        EntityTracker.swap]
    · refine ⟨{ m_prev := some { object := { addr := 0 } }, m_cur := none, m_next := none },
        ?_, rfl, rfl⟩
      simp [runCalls, EntityTracker.new, EntityTracker.feed, EntityTracker.swap,
        ObjectWrapper.obj]

/-! ## Theorems: ring closure and diagnostic flags -/

/-- The requests `forWay` makes depend on the node references only through
their usable coordinates. -/
theorem forWay_requests_of_usable {F G : Type} [BEq F] (b : GeomBuilder F) (proj : Project F)
    (factory : GeometryFactory F G) (nodes nodes2 : List NodeRef) (t : Time) (hint : Bool)
    (h : usableCoordinates b proj t nodes = usableCoordinates b proj t nodes2) :
    (b.forWay proj factory nodes t hint).requests =
      (b.forWay proj factory nodes2 t hint).requests := by
  by_cases hlt : (usableCoordinates b proj t nodes).length < 2
  · rw [(forWay_of_lt_two b proj factory nodes t hint hlt).1,
      (forWay_of_lt_two b proj factory nodes2 t hint (h ▸ hlt)).1]
  · have h2 : 2 ≤ (usableCoordinates b proj t nodes).length := by omega
    rw [(forWay_of_two_le b proj factory nodes t hint h2).1,
      (forWay_of_two_le b proj factory nodes2 t hint (h ▸ h2)).1, h]

/-- C19: ring closure is decided on the usable coordinates, not on the node
references.  The way 1, 2, 3, 1, 9, whose last reference does not resolve,
and the way 1, 2, 3, 5, whose last node shares the coordinate of the first,
both have different first and last references and with the area hint give a
polygon request; the way 9, 1, 2, 3, 9 is closed as a reference list, its
first reference does not resolve, and it gives a line request. -/
theorem ring_closure_on_usable_coordinates :
    ((⟨1⟩ : NodeRef) ≠ ⟨9⟩ ∧
      (sampleBuilder.forWay sampleProject sampleFactory [⟨1⟩, ⟨2⟩, ⟨3⟩, ⟨1⟩, ⟨9⟩] 0 true).requests =
        [EngineRequest.polygon [⟨0, 0, none⟩, ⟨1, 0, none⟩, ⟨1, 1, none⟩, ⟨0, 0, none⟩]]) ∧
    ((⟨1⟩ : NodeRef) ≠ ⟨5⟩ ∧
      (((ImportGeomBuilder twinStore {} false).keepLatLng true).forWay sampleProject
          sampleFactory [⟨1⟩, ⟨2⟩, ⟨3⟩, ⟨5⟩] 0 true).requests =
        [EngineRequest.polygon [⟨0, 0, none⟩, ⟨1, 0, none⟩, ⟨1, 1, none⟩, ⟨0, 0, none⟩]]) ∧
    (([⟨9⟩, ⟨1⟩, ⟨2⟩, ⟨3⟩, ⟨9⟩] : List NodeRef).head? =
        ([⟨9⟩, ⟨1⟩, ⟨2⟩, ⟨3⟩, ⟨9⟩] : List NodeRef).getLast? ∧
      (sampleStore.lookup 9 0).2 = false ∧
      (sampleBuilder.forWay sampleProject sampleFactory [⟨9⟩, ⟨1⟩, ⟨2⟩, ⟨3⟩, ⟨9⟩] 0 true).requests =
        [EngineRequest.lineString [⟨0, 0, none⟩, ⟨1, 0, none⟩, ⟨1, 1, none⟩]]) := by
  refine ⟨⟨by decide, by decide⟩, ⟨by decide, by decide⟩, by decide, by decide, by decide⟩

/-- The usable coordinates do not depend on the diagnostic flags. -/
theorem usableCoordinates_flags {F : Type} (b : GeomBuilder F) (proj : Project F) (t : Time)
    (nodes : List NodeRef) (debug showerrors : Bool) :
    usableCoordinates ({ b with m_debug := debug, m_showerrors := showerrors } : GeomBuilder F)
        proj t nodes =
      usableCoordinates b proj t nodes := rfl

/-- C20: the diagnostic flags do not influence the result.  For every input
and every builder, setting `m_debug` and `m_showerrors` to any values leaves
the pointer `forWay` returns, and the request it makes to the geometry engine,
as they were. -/
theorem forWay_result_ignores_diagnostics {F G : Type} [BEq F] (b : GeomBuilder F)
    (proj : Project F) (factory : GeometryFactory F G) (nodes : List NodeRef) (t : Time)
    (hint : Bool) (debug showerrors : Bool) :
    (({ b with m_debug := debug, m_showerrors := showerrors } : GeomBuilder F).forWay
        proj factory nodes t hint).result =
      (b.forWay proj factory nodes t hint).result ∧
    (({ b with m_debug := debug, m_showerrors := showerrors } : GeomBuilder F).forWay
        proj factory nodes t hint).requests =
      (b.forWay proj factory nodes t hint).requests := by
  have hu := usableCoordinates_flags b proj t nodes debug showerrors
  by_cases hlt : (usableCoordinates b proj t nodes).length < 2
  · have h1 := forWay_of_lt_two b proj factory nodes t hint hlt
    have h2 := forWay_of_lt_two
      ({ b with m_debug := debug, m_showerrors := showerrors } : GeomBuilder F)
      proj factory nodes t hint (by rw [hu]; exact hlt)
    exact ⟨h2.2.trans h1.2.symm, h2.1.trans h1.1.symm⟩
  · have hge : 2 ≤ (usableCoordinates b proj t nodes).length := by omega
    have h1 := forWay_of_two_le b proj factory nodes t hint hge
    have h2 := forWay_of_two_le
      ({ b with m_debug := debug, m_showerrors := showerrors } : GeomBuilder F)
      proj factory nodes t hint (by rw [hu]; exact hge)
    rw [hu] at h2
    exact ⟨h2.2.trans h1.2.symm, h2.1.trans h1.1.symm⟩

/-- Witness of C20: with both diagnostic flags set, the way 7, 1, 8 writes two
lines to `std::cerr` and the way 1, 2, 3, 1 writes four, where the sample
builder writes none; the results are the same. -/
theorem forWay_result_ignores_diagnostics_witness :
    (({ sampleBuilder with m_debug := true, m_showerrors := true } : GeomBuilder Int).forWay
        sampleProject sampleFactory [⟨7⟩, ⟨1⟩, ⟨8⟩] 0 true).cerr =
      [LogLine.nodeAt 1 0 0 0, LogLine.foundOnly 1] ∧
    (sampleBuilder.forWay sampleProject sampleFactory [⟨7⟩, ⟨1⟩, ⟨8⟩] 0 true).cerr = [] ∧
    (({ sampleBuilder with m_debug := true, m_showerrors := true } : GeomBuilder Int).forWay
        sampleProject sampleFactory [⟨1⟩, ⟨2⟩, ⟨3⟩, ⟨1⟩] 0 true).cerr.length = 4 ∧
    (({ sampleBuilder with m_debug := true, m_showerrors := true } : GeomBuilder Int).forWay
        sampleProject sampleFactory [⟨1⟩, ⟨2⟩, ⟨3⟩, ⟨1⟩] 0 true).result =
      (sampleBuilder.forWay sampleProject sampleFactory [⟨1⟩, ⟨2⟩, ⟨3⟩, ⟨1⟩] 0 true).result :=
  ⟨by decide, by decide, by decide,
    (forWay_result_ignores_diagnostics sampleBuilder sampleProject sampleFactory
      [⟨1⟩, ⟨2⟩, ⟨3⟩, ⟨1⟩] 0 true true true).1⟩

end Importer
